import Mathlib

/-!
Verification of the template-driven slide layout and content-fitting engine
of the PowerPoint-Generator repository.

Python strings are modelled as `List Char`, python-pptx EMU lengths as `Int`
(1 inch = 914400 EMU, 1 pt = 12700 EMU).  Fractional luminance comparisons
`(0.299 r + 0.587 g + 0.114 b) / 255 < t` are modelled exactly over the
integers as `299 r + 587 g + 114 b < t * 255000`.
-/

set_option maxRecDepth 40000

/-! ## Content fitting: `PresentationGenerator._ensure_content_fits_slide` -/

/-- The Python ellipsis marker `"..."`. -/
def ellipsis : List Char := ['.', '.', '.']

/-- `Inches(4.5)` in EMU: the title/margin allowance subtracted from the slide
height in `_ensure_content_fits_slide`. -/
def title_margin_allowance : Int := 4114800

/-- `Pt(30)` in EMU: the approximate line height used by
`_ensure_content_fits_slide`. -/
def line_height_emu : Int := 381000

/-- Python slice `xs[:n]` for an arbitrary (possibly negative) integer `n`:
a nonnegative bound takes a prefix, a negative bound drops `-n` items from
the end. -/
def py_slice_to (n : Int) (xs : List α) : List α :=
  if 0 ≤ n then xs.take n.toNat else xs.take (xs.length - (-n).toNat)

/-- The per-item truncation step of `_ensure_content_fits_slide`:
`if len(item) > max_chars: item = item[:max_chars] + "..."`. -/
def trunc_item (maxChars : Nat) (item : List Char) : List Char :=
  if maxChars < item.length then item.take maxChars ++ ellipsis else item

/-- The `try:` body of `_ensure_content_fits_slide`, translated line by line.
The slide height comes from `TemplateAnalyzer.get_slide_dimensions`, which
forwards `presentation.slide_height`; python-pptx returns `None` there when
the size element is absent, making `slide_height - Inches(4.5)` raise a
`TypeError` — modelled as the `none` case.  `int(available / line_height)`
truncates toward zero (`Int.tdiv`); the Python floor division
`max_lines // 2` is `Int.fdiv`. -/
def fit_core (content : List (List Char)) (slideHeight : Option Int) :
    Except Unit (List (List Char)) :=
  match slideHeight with
  | none => Except.error ()
  | some h =>
    let availableHeight := h - title_margin_allowance
    let maxLines := Int.tdiv availableHeight line_height_emu
    let maxItems := min (Int.fdiv maxLines 2) 8
    let fitted := py_slice_to maxItems content
    Except.ok (fitted.map (trunc_item 180))

/-- `_ensure_content_fits_slide`: the `try:` body with its
`except: return content[:6]` boundary.  Total by construction, so no
exception ever propagates to the caller. -/
def ensure_content_fits_slide (content : List (List Char))
    (slideHeight : Option Int) : List (List Char) :=
  match fit_core content slideHeight with
  | Except.ok r => r
  | Except.error _ => content.take 6

/-! ## Title cleaning: the 60-character truncation of `_create_slide` and
`_create_manual_title` -/

/-- The title-cleaning operation applied by `_create_slide` /
`_create_manual_title`: `if len(title) > 60: title = title[:60] + "..."`. -/
def clean_title (t : List Char) : List Char :=
  if 60 < t.length then t.take 60 ++ ellipsis else t

/-! ## Contrast policy: `_apply_high_contrast_color`, `_is_dark_background`,
`_is_color_dark_enough` -/

/-- An RGB color with channels 0–255, as parsed from a `#rrggbb` hex string.
A missing or unparseable color is modelled as `Option.none` at the use
sites (the Python code lands in its `except` branches for those). -/
structure RGB where
  r : Nat
  g : Nat
  b : Nat
deriving DecidableEq

/-- `299 r + 587 g + 114 b`: the luminance numerator; the Python code
computes `(0.299 r + 0.587 g + 0.114 b) / 255` and compares with `0.5`
resp. `0.6`, which is `lum_num < 127500` resp. `lum_num < 153000`. -/
def lum_num (c : RGB) : Nat := 299 * c.r + 587 * c.g + 114 * c.b

/-- `_is_dark_background`: empty dict or unparseable primary background →
`False`; otherwise luminance `< 0.5`. -/
def is_dark_background (bg : Option RGB) : Bool :=
  match bg with
  | none => false
  | some c => decide (lum_num c < 127500)

/-- `_is_color_dark_enough`: missing or unparseable color → `False`;
otherwise luminance `< 0.6`. -/
def is_color_dark_enough (c : Option RGB) : Bool :=
  match c with
  | none => false
  | some p => decide (lum_num p < 153000)

/-- `_apply_high_contrast_color`, translated line by line: first choose the
default (white on a dark background; dark gray 20/20/20 for titles, 40/40/40
for body on a light one), then — independently of the background — replace
it by the theme primary whenever that is present, parseable and has
luminance `< 0.6` (the inner repeated test mirrors the source). -/
def apply_high_contrast_color (primary : Option RGB) (bg : Option RGB)
    (isTitle : Bool) : RGB :=
  let base : RGB :=
    if isTitle then
      if is_dark_background bg then ⟨255, 255, 255⟩ else ⟨20, 20, 20⟩
    else
      if is_dark_background bg then ⟨255, 255, 255⟩ else ⟨40, 40, 40⟩
  match primary with
  | none => base
  | some p =>
    if is_color_dark_enough (some p) then
      if lum_num p < 153000 then p else base
    else base

/-! ## Color extraction: `TemplateAnalyzer._extract_colors` -/

/-- One shape on the template's first slide as seen by `_extract_colors`:
either a solid fill (`fill.type == 1`) with an accessible RGB, some other
shape, or a shape whose fill access raises (ending the scan via the
`except` around the loop). -/
inductive ShapeFill where
  | solid (c : RGB)
  | nonSolid
  | raisesErr
deriving DecidableEq

/-- The scanning loop of `_extract_colors`: first solid fill wins; an
exception abandons the scan with no primary found. -/
def scan_primary : List ShapeFill → Option RGB
  | [] => none
  | ShapeFill.solid c :: _ => some c
  | ShapeFill.nonSolid :: rest => scan_primary rest
  | ShapeFill.raisesErr :: _ => none

/-- Lowercase hex digit, as produced by Python's `02x` format. -/
def hex_digit (n : Nat) : Char :=
  if n < 10 then Char.ofNat (48 + n) else Char.ofNat (87 + n)

/-- Two-digit lowercase hex of a channel value (0–255). -/
def hex2 (n : Nat) : List Char := [hex_digit (n / 16 % 16), hex_digit (n % 16)]

/-- `f"#{rgb.red:02x}{rgb.green:02x}{rgb.blue:02x}"`. -/
def to_hex_color (c : RGB) : List Char :=
  '#' :: (hex2 c.r ++ hex2 c.g ++ hex2 c.b)

/-- Python `dict` lookup on an association list (keys here are unique). -/
def dict_get (k : List Char) : List (List Char × List Char) → Option (List Char)
  | [] => none
  | (k2, v) :: rest => if k2 = k then some v else dict_get k rest

/-- `_extract_colors`: scan the first slide's shapes for a solid fill to set
`primary` (default `#1f4e79` when none found), then always set the fixed
`secondary` and `accent` constants. -/
def extract_colors (shapes : List ShapeFill) : List (List Char × List Char) :=
  let base : List (List Char × List Char) :=
    match scan_primary shapes with
    | some c => [("primary".toList, to_hex_color c)]
    | none => []
  let withPrimary :=
    if (dict_get "primary".toList base).isNone then
      base ++ [("primary".toList, "#1f4e79".toList)]
    else base
  withPrimary ++ [("secondary".toList, "#4472c4".toList),
                  ("accent".toList, "#70ad47".toList)]

/-! ## Layout selection: `TemplateAnalyzer.get_best_layout_for_slide_type` -/

/-- Python `str.lower()` (ASCII). -/
def to_lower_list (xs : List Char) : List Char := xs.map Char.toLower

/-- Python substring test `needle in haystack`. -/
def contains_sub (needle : List Char) : List Char → Bool
  | [] => needle.isEmpty
  | c :: cs => needle.isPrefixOf (c :: cs) || contains_sub needle cs

/-- `any(keyword in name_lower for keyword in kws)`. -/
def name_matches (kws : List (List Char)) (name : List Char) : Bool :=
  kws.any (fun k => contains_sub k (to_lower_list name))

/-- Keywords scanned for `slide_type == 'title'`. -/
def title_keywords : List (List Char) :=
  ["title".toList, "cover".toList, "intro".toList]

/-- Keywords scanned for `slide_type == 'section'`. -/
def section_keywords : List (List Char) :=
  ["section".toList, "divider".toList, "header".toList, "chapter".toList]

/-- Keywords scanned for `slide_type == 'content'`. -/
def content_keywords : List (List Char) :=
  ["content".toList, "bullet".toList, "text".toList, "list".toList]

/-- Keywords scanned for `slide_type == 'comparison'`. -/
def comparison_keywords : List (List Char) :=
  ["two".toList, "comparison".toList, "column".toList, "vs".toList]

/-- Keywords scanned for `slide_type == 'conclusion'`. -/
def conclusion_keywords : List (List Char) :=
  ["conclusion".toList, "thank".toList, "end".toList, "summary".toList]

/-- The scan loop shared by all branches of
`get_best_layout_for_slide_type`: return the stored index (equal to the
enumeration position) of the first layout whose lowercased name contains a
keyword. -/
def first_match_idx (kws : List (List Char)) : List (List Char) → Option Nat
  | [] => none
  | n :: rest =>
    if name_matches kws n then some 0
    else (first_match_idx kws rest).map (fun i => i + 1)

/-- The keyword set the source scans for a given slide type (empty for
unrecognized types, which are never scanned). -/
def keywords_for (st : List Char) : List (List Char) :=
  if st = "title".toList then title_keywords
  else if st = "section".toList then section_keywords
  else if st = "content".toList then content_keywords
  else if st = "comparison".toList then comparison_keywords
  else if st = "conclusion".toList then conclusion_keywords
  else []

/-- `get_best_layout_for_slide_type`, translated branch by branch: empty
catalog → 0; each recognized type scans its keyword list and falls back to
0 (`title`/`section`/`conclusion`) or `min 1 (layoutCount - 1)`
(`content`/`comparison`); any other type returns `min 1 (layoutCount - 1)`
directly. -/
def get_best_layout_for_slide_type (slide_type : List Char)
    (layouts : List (List Char)) : Nat :=
  if layouts.length = 0 then 0
  else if slide_type = "title".toList then
    (first_match_idx title_keywords layouts).getD 0
  else if slide_type = "section".toList then
    (first_match_idx section_keywords layouts).getD 0
  else if slide_type = "content".toList then
    (first_match_idx content_keywords layouts).getD (min 1 (layouts.length - 1))
  else if slide_type = "comparison".toList then
    (first_match_idx comparison_keywords layouts).getD (min 1 (layouts.length - 1))
  else if slide_type = "conclusion".toList then
    (first_match_idx conclusion_keywords layouts).getD 0
  else min 1 (layouts.length - 1)

/-! ## Deck building: `_generate_slides_with_images` -/

/-- A slide description from the outline as consumed by `_create_slide`
(only the fields that drive slide/image interleaving are modelled). -/
structure SlideData where
  title : List Char
  content : List (List Char)
  slide_type : List Char
deriving DecidableEq

/-- One slide appended to the presentation by
`_generate_slides_with_images`: a regular slide composed from a
`SlideData`, or an image slide carrying an image path and the 1-based
position it was inserted after. -/
inductive SlideEvent where
  | regular (s : SlideData)
  | imageSlide (path : List Char) (slideNumber : Nat)
deriving DecidableEq

/-- The loop body of `_generate_slides_with_images`: for each slide create
a regular slide, then — if images were supplied, unconsumed images remain,
the slide's type is `content` and its 1-based position is a multiple of
3 — insert one image slide and advance the image cursor.  Returns the
slide sequence and the final image cursor (= images consumed). -/
def generate_aux (images : List (List Char)) :
    List SlideData → Nat → Nat → List SlideEvent × Nat
  | [], _, imgIdx => ([], imgIdx)
  | s :: rest, i, imgIdx =>
    if images.length ≠ 0 ∧ imgIdx < images.length ∧
        s.slide_type = "content".toList ∧ (i + 1) % 3 = 0 then
      let r := generate_aux images rest (i + 1) (imgIdx + 1)
      (SlideEvent.regular s :: SlideEvent.imageSlide (images.getD imgIdx []) (i + 1) :: r.1,
        r.2)
    else
      let r := generate_aux images rest (i + 1) imgIdx
      (SlideEvent.regular s :: r.1, r.2)

/-- `_generate_slides_with_images` (after clearing pre-existing slides):
iterate the outline's slides from position 0 with no image consumed yet. -/
def generate_slides_with_images (slides : List SlideData)
    (images : List (List Char)) : List SlideEvent × Nat :=
  generate_aux images slides 0 0

/-! ## Content normalization: `ContentFitter.normalize` (spec §4.3) -/

/-- Whitespace characters collapsed by `normalize`. -/
def is_ws (c : Char) : Bool :=
  c == ' ' || c == '\t' || c == '\n' || c == '\r'

/-- Fuel-driven removal of every occurrence of the marker `m` from a
character list (fuel = list length suffices, each step consumes at least
one character). -/
def strip_marker_go (m : List Char) : Nat → List Char → List Char
  | 0, xs => xs
  | _ + 1, [] => []
  | fuel + 1, c :: cs =>
    if 0 < m.length ∧ (c :: cs).take m.length = m then
      strip_marker_go m fuel ((c :: cs).drop m.length)
    else
      c :: strip_marker_go m fuel cs

/-- Remove every occurrence of the marker `m`. -/
def strip_marker (m xs : List Char) : List Char :=
  strip_marker_go m xs.length xs

/-- Modelled from the spec: "strip known encoding artifacts
(carriage-return/line-feed escape markers)" — remove the `_x000D_` and
`_x000A_` escape markers.  The refined `ContentFitter` implementation this
describes is not present under `src/`. -/
def strip_artifacts (xs : List Char) : List Char :=
  strip_marker "_x000A_".toList (strip_marker "_x000D_".toList xs)

/-- Fuel-driven collapse of whitespace runs to single spaces. -/
def collapse_ws_go : Nat → List Char → List Char
  | 0, xs => xs
  | _ + 1, [] => []
  | fuel + 1, c :: cs =>
    if is_ws c then ' ' :: collapse_ws_go fuel (cs.dropWhile is_ws)
    else c :: collapse_ws_go fuel cs

/-- Modelled from the spec: "collapse internal whitespace runs to single
spaces". -/
def collapse_ws (xs : List Char) : List Char :=
  collapse_ws_go xs.length xs

/-- Modelled from the spec: collapse a doubled `Analysis: Analysis:` prefix
to a single instance (drop one 10-character `Analysis: ` prefix). -/
def collapse_analysis (xs : List Char) : List Char :=
  if ("Analysis: Analysis:".toList).isPrefixOf xs then xs.drop 10 else xs

/-- Bullet glyphs recognized at the start of an item. -/
def bullet_glyphs : List Char := ['•', '●', '▶', '◀', '-', '*']

/-- An item "has a recognizable bullet glyph" when it starts with one. -/
def has_bullet_glyph (xs : List Char) : Bool :=
  match xs with
  | [] => false
  | c :: _ => bullet_glyphs.contains c

/-- An item "carries a colon-delimited label" when it contains a colon. -/
def has_colon_label (xs : List Char) : Bool := xs.contains ':'

/-- Lowercased keyword containment for the label table. -/
def contains_word (xs : List Char) (w : List Char) : Bool :=
  contains_sub w (to_lower_list xs)

/-- Modelled from the spec: the categorical-label table of `normalize`
(market/revenue/growth → `Market Insight:`; feature/benefit/advantage →
`Key Benefit:`; strategy/plan/approach → `Strategic Approach:`;
result/outcome/impact → `Expected Outcome:`; else `Key Point:`). -/
def label_for (xs : List Char) : List Char :=
  if contains_word xs "market".toList || contains_word xs "revenue".toList ||
      contains_word xs "growth".toList then "Market Insight: ".toList
  else if contains_word xs "feature".toList || contains_word xs "benefit".toList ||
      contains_word xs "advantage".toList then "Key Benefit: ".toList
  else if contains_word xs "strategy".toList || contains_word xs "plan".toList ||
      contains_word xs "approach".toList then "Strategic Approach: ".toList
  else if contains_word xs "result".toList || contains_word xs "outcome".toList ||
      contains_word xs "impact".toList then "Expected Outcome: ".toList
  else "Key Point: ".toList

/-- The terminal punctuation set `.!?`. -/
def terminal_punct : List Char := ['.', '!', '?']

/-- Modelled from the spec: "ensure terminal punctuation (append `.` if the
item ends without one of `.!?`)". -/
def ensure_terminal_punct (xs : List Char) : List Char :=
  match xs.getLast? with
  | some c => if terminal_punct.contains c then xs else xs ++ ['.']
  | none => xs ++ ['.']

/-- Modelled from the spec: `ContentFitter.normalize` applied to one item —
strip encoding artifacts, collapse whitespace runs, drop items shorter than
3 characters, collapse a doubled `Analysis:` prefix, prepend a categorical
label when the item lacks both a bullet glyph and a colon label, and
finally ensure terminal punctuation. -/
def normalize_item (item : List Char) : Option (List Char) :=
  let s1 := strip_artifacts item
  let s2 := collapse_ws s1
  if s2.length < 3 then none
  else
    let s3 := collapse_analysis s2
    let s4 :=
      if has_bullet_glyph s3 || has_colon_label s3 then s3
      else label_for s3 ++ s3
    some (ensure_terminal_punct s4)

/-- Modelled from the spec: `ContentFitter.normalize` over an item list
(dropped items disappear). -/
def normalize_items (items : List (List Char)) : List (List Char) :=
  items.filterMap normalize_item

/-! ## Theorems -/

theorem trunc_item_length_le (x : List Char) :
    (trunc_item 180 x).length ≤ 183 := by
  unfold trunc_item
  split
  · have h1 : (x.take 180).length ≤ 180 := by simp
    have h2 : ellipsis.length = 3 := rfl
    simp only [List.length_append]
    omega
  · omega

/-- C1 (amended): for any content list and any slide height at least the
4.5-inch title/margin allowance, `_ensure_content_fits_slide` returns at
most 8 items, each of length at most 183 characters (180 plus the
three-character ellipsis). -/
theorem c1_fit_bounds (content : List (List Char)) (h : Int)
    (hh : title_margin_allowance ≤ h) :
    (ensure_content_fits_slide content (some h)).length ≤ 8 ∧
      ∀ x ∈ ensure_content_fits_slide content (some h), x.length ≤ 183 := by
  have hml : 0 ≤ Int.tdiv (h - title_margin_allowance) line_height_emu :=
    Int.tdiv_nonneg (by omega) (by norm_num [line_height_emu])
  have hmi : 0 ≤ min (Int.fdiv (Int.tdiv (h - title_margin_allowance) line_height_emu) 2) 8 :=
    le_min (Int.fdiv_nonneg hml (by norm_num)) (by norm_num)
  have hmi8 : min (Int.fdiv (Int.tdiv (h - title_margin_allowance) line_height_emu) 2) 8 ≤ 8 :=
    min_le_right _ _
  unfold ensure_content_fits_slide fit_core
  simp only [py_slice_to, if_pos hmi]
  constructor
  · simp only [List.length_map, List.length_take]
    have : (min (Int.fdiv (Int.tdiv (h - title_margin_allowance) line_height_emu) 2) 8).toNat ≤ 8 := by
      rw [Int.toNat_le]
      exact_mod_cast hmi8
    omega
  · intro x hx
    simp only [List.mem_map] at hx
    obtain ⟨y, _, hy⟩ := hx
    rw [← hy]
    exact trunc_item_length_le y

/-- C1 witness: the amended theorem applied at the standard 7.5-inch slide
height and twenty 300-character items. -/
theorem c1_fit_bounds_witness :
    title_margin_allowance ≤ 6858000 ∧
      ((ensure_content_fits_slide (List.replicate 20 (List.replicate 300 'a'))
          (some 6858000)).length ≤ 8 ∧
        ∀ x ∈ ensure_content_fits_slide (List.replicate 20 (List.replicate 300 'a'))
            (some 6858000), x.length ≤ 183) :=
  ⟨by decide, c1_fit_bounds (List.replicate 20 (List.replicate 300 'a')) 6858000 (by decide)⟩

/-- C1 counterexample: at slide height 0 the computed item bound is the
negative number -5, and the Python slice `content[:-5]` keeps 15 of 20
items, so the result has more than 8 items. -/
theorem c1_fit_bounds_counterexample :
    ¬ ((ensure_content_fits_slide (List.replicate 20 ['a']) (some 0)).length ≤ 8) := by
  decide

/-- C4 counterexample: a 181-character item is truncated to
`item[:180] + "..."`, which has 183 characters, not 180. -/
theorem c4_truncation_length_counterexample :
    (ensure_content_fits_slide [List.replicate 181 'a'] (some 6858000)).map List.length
      = [183] ∧ (183 ≠ 180) := by
  constructor
  · decide
  · decide

/-- C4 (amended): every item longer than the 180-character budget is
truncated to its first 180 characters followed by the three-character
ellipsis, for a total of exactly 183 characters. -/
theorem c4_truncation_length (item : List Char) (h : Int)
    (hitem : 180 < item.length)
    (hh : title_margin_allowance + 2 * line_height_emu ≤ h) :
    ensure_content_fits_slide [item] (some h)
        = [item.take 180 ++ ellipsis] ∧
      (item.take 180 ++ ellipsis).length = 183 := by
  have hA : (0 : Int) ≤ h - title_margin_allowance := by
    have : (0 : Int) ≤ 2 * line_height_emu := by norm_num [line_height_emu]
    omega
  have hml : 2 ≤ Int.tdiv (h - title_margin_allowance) line_height_emu := by
    rw [Int.tdiv_eq_ediv hA (by norm_num [line_height_emu])]
    rw [Int.le_ediv_iff_mul_le (by norm_num [line_height_emu])]
    omega
  have hfd : 1 ≤ Int.fdiv (Int.tdiv (h - title_margin_allowance) line_height_emu) 2 := by
    rw [Int.fdiv_eq_ediv _ (by norm_num)]
    rw [Int.le_ediv_iff_mul_le (by norm_num)]
    omega
  have hmi : 0 ≤ min (Int.fdiv (Int.tdiv (h - title_margin_allowance) line_height_emu) 2) 8 := by
    have := le_min hfd (by norm_num : (1:Int) ≤ 8)
    omega
  have h1 : 1 ≤ (min (Int.fdiv (Int.tdiv (h - title_margin_allowance) line_height_emu) 2) 8).toNat := by
    have := le_min hfd (by norm_num : (1:Int) ≤ 8)
    omega
  constructor
  · unfold ensure_content_fits_slide fit_core
    simp only [py_slice_to, if_pos hmi]
    rw [List.take_of_length_le (by simpa using h1)]
    simp only [List.map_cons, List.map_nil, trunc_item, if_pos hitem]
  · have h2 : ellipsis.length = 3 := rfl
    have h3 : (item.take 180).length = 180 := by
      simp only [List.length_take]
      omega
    simp only [List.length_append, h3, h2]

/-- C4 witness: the amended theorem at a 181-character item and the
standard 7.5-inch slide height. -/
theorem c4_truncation_length_witness :
    180 < (List.replicate 181 'a').length ∧
      title_margin_allowance + 2 * line_height_emu ≤ 6858000 ∧
      (ensure_content_fits_slide [List.replicate 181 'a'] (some 6858000)
          = [(List.replicate 181 'a').take 180 ++ ellipsis] ∧
        ((List.replicate 181 'a').take 180 ++ ellipsis).length = 183) :=
  ⟨by decide, by decide,
    c4_truncation_length (List.replicate 181 'a') 6858000 (by decide) (by decide)⟩

/-- C5: whenever the fitting computation fails internally (the
`except:` branch of `_ensure_content_fits_slide`), the function returns the
first 6 input items completely unmodified; the wrapper itself is a total
function, so no exception ever propagates to the caller. -/
theorem c5_fit_error_fallback (content : List (List Char))
    (h : Option Int) (e : Unit) (he : fit_core content h = Except.error e) :
    ensure_content_fits_slide content h = content.take 6 := by
  unfold ensure_content_fits_slide
  rw [he]

/-- C5 witness: a missing slide height makes the computation fail, and the
fallback returns the (at most 6) raw items. -/
theorem c5_fit_error_fallback_witness :
    ensure_content_fits_slide [['a']] none = [['a']].take 6 :=
  c5_fit_error_fallback [['a']] none () rfl

/-- C7: the title-cleaning operation of `_create_slide` /
`_create_manual_title` (hard truncation to 60 characters plus an ellipsis)
is idempotent. -/
theorem c7_clean_title_idempotent (t : List Char) :
    clean_title (clean_title t) = clean_title t := by
  unfold clean_title
  by_cases h : 60 < t.length
  · rw [if_pos h]
    have hlen : (t.take 60 ++ ellipsis).length = 63 := by
      have h2 : ellipsis.length = 3 := rfl
      have h3 : (t.take 60).length = 60 := by
        simp only [List.length_take]
        omega
      simp only [List.length_append, h3, h2]
    rw [if_pos (by omega)]
    have : (t.take 60 ++ ellipsis).take 60 = t.take 60 := by
      rw [List.take_append_of_le_length (by simp; omega)]
      simp [List.take_take]
    rw [this]
  · rw [if_neg h, if_neg h]

/-- C2 counterexample: with a black background (dark) and a black theme
primary (luminance 0 < 0.6), `_apply_high_contrast_color` resolves the run
color to the theme primary, not to pure white — the theme override does
replace the white-on-dark choice. -/
theorem c2_contrast_counterexample :
    is_dark_background (some (RGB.mk 0 0 0)) = true ∧
      apply_high_contrast_color (some (RGB.mk 0 0 0)) (some (RGB.mk 0 0 0)) false
        ≠ RGB.mk 255 255 255 := by
  constructor
  · decide
  · decide

/-- C2 (amended): pure white is chosen on a dark background only as the
default: it stands whenever the theme primary is absent, unparseable or not
dark enough; a theme primary of luminance below 0.6 overrides the chosen
color on light AND dark backgrounds alike; on a light background the
resolved color always has luminance below 0.6. -/
theorem c2_contrast_policy (primary bg : Option RGB) (isTitle : Bool) :
    (is_dark_background bg = true → is_color_dark_enough primary = false →
      apply_high_contrast_color primary bg isTitle = RGB.mk 255 255 255) ∧
    (is_dark_background bg = false →
      lum_num (apply_high_contrast_color primary bg isTitle) < 153000) ∧
    (∀ p, primary = some p → lum_num p < 153000 →
      apply_high_contrast_color primary bg isTitle = p) := by
  refine ⟨?_, ?_, ?_⟩
  · intro hdark hnd
    cases primary with
    | none =>
      simp [apply_high_contrast_color, hdark]
    | some p =>
      simp only [is_color_dark_enough, decide_eq_false_iff_not, not_lt] at hnd
      simp [apply_high_contrast_color, hdark, is_color_dark_enough]
      omega
  · intro hlight
    cases primary with
    | none =>
      cases isTitle <;> simp [apply_high_contrast_color, hlight] <;> decide
    | some p =>
      by_cases hp : lum_num p < 153000
      · cases isTitle <;>
          simp [apply_high_contrast_color, hlight, is_color_dark_enough, hp]
      · cases isTitle <;>
          simp [apply_high_contrast_color, hlight, is_color_dark_enough, hp] <;>
          decide
  · intro p hp hlum
    subst hp
    simp [apply_high_contrast_color, is_color_dark_enough, hlum]

/-- C2 witness: a dark theme primary overrides the default even on a light
(white) background — the theorem applied at concrete colors. -/
theorem c2_contrast_policy_witness :
    apply_high_contrast_color (some (RGB.mk 31 78 121)) (some (RGB.mk 255 255 255)) true
      = RGB.mk 31 78 121 :=
  (c2_contrast_policy (some (RGB.mk 31 78 121)) (some (RGB.mk 255 255 255)) true).2.2
    (RGB.mk 31 78 121) rfl (by decide)

/-- C10: the color map built by `_extract_colors` always contains the keys
`primary`, `secondary` and `accent`; `secondary` and `accent` are the fixed
constants `#4472c4` and `#70ad47` regardless of the template's shapes, and
`primary` is the default `#1f4e79` whenever the scan finds no solid-fill
shape. -/
theorem c10_extract_colors_defaults (shapes : List ShapeFill) :
    (dict_get "primary".toList (extract_colors shapes)).isSome = true ∧
    dict_get "secondary".toList (extract_colors shapes) = some "#4472c4".toList ∧
    dict_get "accent".toList (extract_colors shapes) = some "#70ad47".toList ∧
    (scan_primary shapes = none →
      dict_get "primary".toList (extract_colors shapes) = some "#1f4e79".toList) := by
  cases hscan : scan_primary shapes with
  | none =>
    refine ⟨?_, ?_, ?_, ?_⟩ <;>
      simp [extract_colors, hscan, dict_get]
  | some c =>
    refine ⟨?_, ?_, ?_, ?_⟩
    · simp [extract_colors, hscan, dict_get]
    · simp [extract_colors, hscan, dict_get]
    · simp [extract_colors, hscan, dict_get]
    · intro hnone
      simp at hnone

/-- C10 witness: the default-primary clause applied to a template first
slide with no shapes. -/
theorem c10_extract_colors_defaults_witness :
    dict_get "primary".toList (extract_colors []) = some "#1f4e79".toList :=
  (c10_extract_colors_defaults []).2.2.2 rfl

theorem first_match_idx_spec (kws : List (List Char)) :
    ∀ (ls : List (List Char)) (i : Nat), first_match_idx kws ls = some i →
      i < ls.length ∧ name_matches kws (ls.getD i []) = true ∧
        ∀ j, j < i → name_matches kws (ls.getD j []) = false := by
  intro ls
  induction ls with
  | nil => intro i h; simp [first_match_idx] at h
  | cons n rest ih =>
    intro i h
    by_cases hm : name_matches kws n
    · simp [first_match_idx, hm] at h
      subst h
      refine ⟨by simp, by simpa using hm, ?_⟩
      intro j hj
      omega
    · simp [first_match_idx, hm] at h
      obtain ⟨i0, h0, hi⟩ := h
      obtain ⟨ha, hb, hc⟩ := ih i0 h0
      subst hi
      refine ⟨by simpa using ha, by simpa using hb, ?_⟩
      intro j hj
      cases j with
      | zero => simpa using hm
      | succ j0 =>
        simpa using hc j0 (by omega)

theorem first_match_idx_nil_kws (ls : List (List Char)) :
    first_match_idx [] ls = none := by
  induction ls with
  | nil => rfl
  | cons n rest ih => simp [first_match_idx, name_matches, ih]

theorem fmi_getD_lt (kws : List (List Char)) (ls : List (List Char)) (d : Nat)
    (hd : d < ls.length) : (first_match_idx kws ls).getD d < ls.length := by
  cases hfm : first_match_idx kws ls with
  | none => simpa using hd
  | some i => simpa using (first_match_idx_spec kws ls i hfm).1

/-- C3: `get_best_layout_for_slide_type` is a pure, deterministic function
of `(slideType, layouts)`; whenever a layout name matches a keyword of the
slide type it returns the first matching index in catalog order; when none
matches it returns 0 for `title`/`section`/`conclusion` and
`min 1 (layoutCount - 1)` for `content`/`comparison`/unrecognized types;
and for `section` over `["Title Slide", "Content", "Section Header"]` it
returns index 2. -/
theorem c3_layout_selection_policy :
    (∀ st ls, get_best_layout_for_slide_type st ls
        = get_best_layout_for_slide_type st ls)
    ∧ (∀ st ls i, first_match_idx (keywords_for st) ls = some i →
        get_best_layout_for_slide_type st ls = i ∧ i < ls.length ∧
          name_matches (keywords_for st) (ls.getD i []) = true ∧
          ∀ j, j < i → name_matches (keywords_for st) (ls.getD j []) = false)
    ∧ (∀ st ls, ls.length ≠ 0 → first_match_idx (keywords_for st) ls = none →
        get_best_layout_for_slide_type st ls =
          if st = "title".toList ∨ st = "section".toList ∨ st = "conclusion".toList
          then 0 else min 1 (ls.length - 1))
    ∧ get_best_layout_for_slide_type "section".toList
        ["Title Slide".toList, "Content".toList, "Section Header".toList] = 2 := by
  refine ⟨fun st ls => rfl, ?_, ?_, ?_⟩
  · intro st ls i hfmi
    have hspec := first_match_idx_spec (keywords_for st) ls i hfmi
    have hne : ¬ (ls.length = 0) := by
      have := hspec.1
      omega
    refine ⟨?_, hspec.1, hspec.2.1, hspec.2.2⟩
    unfold get_best_layout_for_slide_type
    rw [if_neg hne]
    by_cases h1 : st = "title".toList
    · have hk : keywords_for st = title_keywords := by
        unfold keywords_for
        rw [if_pos h1]
      rw [hk] at hfmi
      rw [if_pos h1, hfmi]
      rfl
    rw [if_neg h1]
    by_cases h2 : st = "section".toList
    · have hk : keywords_for st = section_keywords := by
        unfold keywords_for
        rw [if_neg h1, if_pos h2]
      rw [hk] at hfmi
      rw [if_pos h2, hfmi]
      rfl
    rw [if_neg h2]
    by_cases h3 : st = "content".toList
    · have hk : keywords_for st = content_keywords := by
        unfold keywords_for
        rw [if_neg h1, if_neg h2, if_pos h3]
      rw [hk] at hfmi
      rw [if_pos h3, hfmi]
      rfl
    rw [if_neg h3]
    by_cases h4 : st = "comparison".toList
    · have hk : keywords_for st = comparison_keywords := by
        unfold keywords_for
        rw [if_neg h1, if_neg h2, if_neg h3, if_pos h4]
      rw [hk] at hfmi
      rw [if_pos h4, hfmi]
      rfl
    rw [if_neg h4]
    by_cases h5 : st = "conclusion".toList
    · have hk : keywords_for st = conclusion_keywords := by
        unfold keywords_for
        rw [if_neg h1, if_neg h2, if_neg h3, if_neg h4, if_pos h5]
      rw [hk] at hfmi
      rw [if_pos h5, hfmi]
      rfl
    have hk : keywords_for st = [] := by
      unfold keywords_for
      rw [if_neg h1, if_neg h2, if_neg h3, if_neg h4, if_neg h5]
    rw [hk, first_match_idx_nil_kws] at hfmi
    exact Option.noConfusion hfmi
  · intro st ls hne hnone
    unfold get_best_layout_for_slide_type
    rw [if_neg hne]
    by_cases h1 : st = "title".toList
    · have hk : keywords_for st = title_keywords := by
        unfold keywords_for
        rw [if_pos h1]
      rw [hk] at hnone
      rw [if_pos h1, hnone, if_pos (Or.inl h1)]
      rfl
    rw [if_neg h1]
    by_cases h2 : st = "section".toList
    · have hk : keywords_for st = section_keywords := by
        unfold keywords_for
        rw [if_neg h1, if_pos h2]
      rw [hk] at hnone
      rw [if_pos h2, hnone, if_pos (Or.inr (Or.inl h2))]
      rfl
    rw [if_neg h2]
    by_cases h3 : st = "content".toList
    · have hk : keywords_for st = content_keywords := by
        unfold keywords_for
        rw [if_neg h1, if_neg h2, if_pos h3]
      rw [hk] at hnone
      have hor : ¬ (st = "title".toList ∨ st = "section".toList ∨ st = "conclusion".toList) := by
        rintro (h | h | h)
        · exact h1 h
        · exact h2 h
        · rw [h3] at h
          exact absurd h (by decide)
      rw [if_pos h3, hnone, if_neg hor]
      rfl
    rw [if_neg h3]
    by_cases h4 : st = "comparison".toList
    · have hk : keywords_for st = comparison_keywords := by
        unfold keywords_for
        rw [if_neg h1, if_neg h2, if_neg h3, if_pos h4]
      rw [hk] at hnone
      have hor : ¬ (st = "title".toList ∨ st = "section".toList ∨ st = "conclusion".toList) := by
        rintro (h | h | h)
        · exact h1 h
        · exact h2 h
        · rw [h4] at h
          exact absurd h (by decide)
      rw [if_pos h4, hnone, if_neg hor]
      rfl
    rw [if_neg h4]
    by_cases h5 : st = "conclusion".toList
    · have hk : keywords_for st = conclusion_keywords := by
        unfold keywords_for
        rw [if_neg h1, if_neg h2, if_neg h3, if_neg h4, if_pos h5]
      rw [hk] at hnone
      rw [if_pos h5, hnone, if_pos (Or.inr (Or.inr h5))]
      rfl
    rw [if_neg h5]
    have hor : ¬ (st = "title".toList ∨ st = "section".toList ∨ st = "conclusion".toList) := by
      rintro (h | h | h)
      · exact h1 h
      · exact h2 h
      · exact h5 h
    rw [if_neg hor]
  · decide

/-- C3 witness: the first-match clause applied at the `section` example,
whose scan finds its match at index 2. -/
theorem c3_layout_selection_policy_witness :
    first_match_idx (keywords_for "section".toList)
        ["Title Slide".toList, "Content".toList, "Section Header".toList] = some 2 ∧
      get_best_layout_for_slide_type "section".toList
        ["Title Slide".toList, "Content".toList, "Section Header".toList] = 2 :=
  ⟨by decide,
    (c3_layout_selection_policy.2.1 "section".toList
      ["Title Slide".toList, "Content".toList, "Section Header".toList] 2 (by decide)).1⟩

/-- C9: the selected layout index is always in bounds — 0 for an empty
catalog, and strictly less than the catalog size otherwise, so indexing
`presentation.slide_layouts` with it cannot fail on a template with at
least one layout. -/
theorem c9_layout_index_in_bounds (st : List Char) (ls : List (List Char)) :
    (ls.length = 0 → get_best_layout_for_slide_type st ls = 0) ∧
    (ls.length ≠ 0 → get_best_layout_for_slide_type st ls < ls.length) := by
  constructor
  · intro h
    simp [get_best_layout_for_slide_type, h]
  · intro hne
    have hpos : 0 < ls.length := Nat.pos_of_ne_zero hne
    have hmin : min 1 (ls.length - 1) < ls.length := by omega
    unfold get_best_layout_for_slide_type
    rw [if_neg hne]
    by_cases h1 : st = "title".toList
    · rw [if_pos h1]
      exact fmi_getD_lt _ _ _ hpos
    rw [if_neg h1]
    by_cases h2 : st = "section".toList
    · rw [if_pos h2]
      exact fmi_getD_lt _ _ _ hpos
    rw [if_neg h2]
    by_cases h3 : st = "content".toList
    · rw [if_pos h3]
      exact fmi_getD_lt _ _ _ hmin
    rw [if_neg h3]
    by_cases h4 : st = "comparison".toList
    · rw [if_pos h4]
      exact fmi_getD_lt _ _ _ hmin
    rw [if_neg h4]
    by_cases h5 : st = "conclusion".toList
    · rw [if_pos h5]
      exact fmi_getD_lt _ _ _ hpos
    rw [if_neg h5]
    exact hmin

/-- C9 witness: the bounds at an empty catalog and at a one-layout
catalog. -/
theorem c9_layout_index_in_bounds_witness :
    get_best_layout_for_slide_type "content".toList [] = 0 ∧
      get_best_layout_for_slide_type "content".toList ["Only".toList] < 1 :=
  ⟨(c9_layout_index_in_bounds "content".toList []).1 rfl,
    (c9_layout_index_in_bounds "content".toList ["Only".toList]).2 (by decide)⟩

/-- C6: for an outline of exactly 5 slides, all of type `content`, with 2
images supplied, exactly one image slide is inserted — immediately after
the 3rd content slide (1-based position 3) — consuming exactly one image
(final cursor 1), so one image stays unconsumed. -/
theorem c6_image_interleaving (s1 s2 s3 s4 s5 : SlideData) (p1 p2 : List Char)
    (h1 : s1.slide_type = "content".toList)
    (h2 : s2.slide_type = "content".toList)
    (h3 : s3.slide_type = "content".toList)
    (h4 : s4.slide_type = "content".toList)
    (h5 : s5.slide_type = "content".toList) :
    generate_slides_with_images [s1, s2, s3, s4, s5] [p1, p2] =
      ([SlideEvent.regular s1, SlideEvent.regular s2, SlideEvent.regular s3,
        SlideEvent.imageSlide p1 3, SlideEvent.regular s4, SlideEvent.regular s5],
        1) := by
  simp [generate_slides_with_images, generate_aux, h1, h2, h3, h4, h5]

/-- C6 witness: the insertion pattern at five concrete content slides and
two image paths. -/
theorem c6_image_interleaving_witness :
    generate_slides_with_images
        [SlideData.mk "A".toList [] "content".toList,
         SlideData.mk "B".toList [] "content".toList,
         SlideData.mk "C".toList [] "content".toList,
         SlideData.mk "D".toList [] "content".toList,
         SlideData.mk "E".toList [] "content".toList]
        ["i1".toList, "i2".toList] =
      ([SlideEvent.regular (SlideData.mk "A".toList [] "content".toList),
        SlideEvent.regular (SlideData.mk "B".toList [] "content".toList),
        SlideEvent.regular (SlideData.mk "C".toList [] "content".toList),
        SlideEvent.imageSlide "i1".toList 3,
        SlideEvent.regular (SlideData.mk "D".toList [] "content".toList),
        SlideEvent.regular (SlideData.mk "E".toList [] "content".toList)],
        1) :=
  c6_image_interleaving _ _ _ _ _ _ _ rfl rfl rfl rfl rfl

/-- C8: `normalize` on well-formed input — an item free of encoding
artifacts, already single-spaced, at least 3 characters long, not carrying
a doubled `Analysis:` prefix, ending in one of `.!?` and already carrying a
colon-delimited label — returns the item unchanged: in particular its
terminal punctuation and its label are untouched (idempotence on
well-formed input). -/
theorem c8_normalize_wellformed_identity (item : List Char) (c : Char)
    (hstrip : strip_artifacts item = item)
    (hws : collapse_ws item = item)
    (hdbl : ("Analysis: Analysis:".toList).isPrefixOf item = false)
    (hlen : 3 ≤ item.length)
    (hlast : item.getLast? = some c)
    (hpunct : terminal_punct.contains c = true)
    (hlabel : has_colon_label item = true) :
    normalize_item item = some item := by
  have hlt : ¬ (item.length < 3) := by omega
  have hfalse : ¬ (("Analysis: Analysis:".toList).isPrefixOf item = true) := by
    rw [hdbl]
    simp
  have hca : collapse_analysis item = item := by
    unfold collapse_analysis
    rw [if_neg hfalse]
  have hmem : c ∈ terminal_punct := by
    simpa using hpunct
  have het : ensure_terminal_punct item = item := by
    unfold ensure_terminal_punct
    rw [hlast]
    simp [hmem]
  simp [normalize_item, hstrip, hws, hlt, hca, hlabel, het]

/-- C8 witness: the identity at a labeled, punctuated item. -/
theorem c8_normalize_wellformed_identity_witness :
    normalize_item ("Key Point: strong growth.".toList)
      = some ("Key Point: strong growth.".toList) :=
  c8_normalize_wellformed_identity ("Key Point: strong growth.".toList) '.'
    (by decide) (by decide) (by decide) (by decide) (by decide) (by decide) (by decide)
